import Mathlib

/-!
Shallow embedding of the blog CRUD application in `src/main.py`.

The persistent store (an SQLite table accessed through SQLAlchemy) is
modelled as a list of `BlogPost` records; each Flask route handler becomes
a pure function from a store (plus the request data it reads) to the pair
of the produced HTTP outcome and the resulting store.  An unhandled Python
exception (AttributeError on `None`, SQLAlchemy IntegrityError, the
UnmappedInstanceError of `session.delete(None)`) is modelled as the
`Outcome.fault` constructor, with the store unchanged, since a failed
commit is rolled back.
-/

namespace Blog

/-- Decimal digit character, `digitChar d = '0' + d` for `d < 10`. -/
def digitChar (d : Nat) : Char := Char.ofNat (48 + d)

/-- The list of decimal digits of `n`, most significant first, as printed
by Python's string formatting of an integer. -/
def natDigits (n : Nat) : List Char :=
  if _h : n < 10 then [digitChar n]
  else natDigits (n / 10) ++ [digitChar (n % 10)]
decreasing_by exact Nat.div_lt_self (by omega) (by omega)

/-- The calendar date supplied by `dt.datetime.now()` on the server. -/
structure Date where
  month : Nat
  day : Nat
  year : Nat
deriving DecidableEq, Repr

/-- Zero-padded two-digit field, as produced by strftime `%m` and `%d`. -/
def pad2 (n : Nat) : List Char :=
  if n < 10 then '0' :: natDigits n else natDigits n

/-- `dt.datetime.now().strftime('%m %d, %Y')` from `new_post`
(src/main.py line 195). -/
def strftimeMDY (t : Date) : String :=
  String.mk (pad2 t.month ++ (' ' :: pad2 t.day) ++ (',' :: ' ' :: natDigits t.year))

/-- Checker for the spec's "MM DD, YYYY" date shape: two digits, a space,
two digits, a comma and a space, then a nonempty run of digits. -/
def dateFormatOK (s : String) : Bool :=
  match s.toList with
  | m1 :: m2 :: s1 :: d1 :: d2 :: c1 :: s2 :: rest =>
      m1.isDigit && m2.isDigit && (s1 == ' ') && d1.isDigit && d2.isDigit &&
      (c1 == ',') && (s2 == ' ') && !rest.isEmpty && rest.all Char.isDigit
  | _ => false

/-- The five free-text inputs of `CreatePostForm` (src/main.py lines 92-96).
The form has no date field: a client cannot submit a date. -/
structure Fields where
  title : String
  subtitle : String
  author : String
  img_url : String
  body : String
deriving DecidableEq, Repr

/-- Modelled from the spec: the wtforms `DataRequired` validator (library
code, not under src/); per the spec every field is "required (non-empty)".
wtforms treats a whitespace-only string the same as a missing one. -/
def dataRequired (s : String) : Bool := !(s.toList.all Char.isWhitespace)

/-- Modelled from the spec: the wtforms `URL()` validator (library code,
not under src/); the spec only requires that `img_url` "must parse as a
well-formed URL", modelled as an http(s) scheme followed by a nonempty
remainder. -/
def isURL (s : String) : Bool :=
  (List.isPrefixOf "http://".toList s.toList && decide (7 < s.toList.length)) ||
  (List.isPrefixOf "https://".toList s.toList && decide (8 < s.toList.length))

/-- `form.validate_on_submit()` on submitted data: every `CreatePostForm`
field carries `DataRequired()`, and `img_url` additionally `URL()`
(src/main.py lines 92-96). -/
def validateForm (f : Fields) : Bool :=
  dataRequired f.title && dataRequired f.subtitle && dataRequired f.author &&
  dataRequired f.img_url && isURL f.img_url && dataRequired f.body

/-- One row of the `BlogPost` table (src/main.py lines 62-68), columns in
source order. -/
structure BlogPost where
  id : Nat
  title : String
  subtitle : String
  date : String
  body : String
  author : String
  img_url : String
deriving DecidableEq, Repr

/-- The store: the rows of the single `blog_post` table, in persisted
order. -/
abbrev Store := List BlogPost

/-- `BlogPost.query.all()`. -/
def queryAll (s : Store) : List BlogPost := s

/-- `BlogPost.query.get(i)`: primary-key lookup. -/
def queryGet (s : Store) (i : Nat) : Option BlogPost :=
  s.find? (fun p => p.id == i)

/-- The id SQLite assigns to a freshly inserted row: one more than the
largest rowid in the table. -/
def newId (s : Store) : Nat :=
  (s.map (fun p => p.id)).foldl max 0 + 1

/-- Whether some stored row already uses title `t` (the `unique=True`
constraint on the `title` column, src/main.py line 63). -/
def titleTaken (s : Store) (t : String) : Bool :=
  s.any (fun p => p.title == t)

/-- The body of an HTTP response produced by a handler: a rendered
template with its data context, or a redirect. -/
inductive Response where
  | indexPage (all_posts : List BlogPost)
  | postPage (post : Option BlogPost)
  | aboutPage
  | contactPage
  | makePostPage (form : Fields) (is_new : Bool)
  | redirect (location : String)
deriving DecidableEq, Repr

/-- Result of running a handler: a page/redirect, or an uncaught Python
exception (named by its class). -/
inductive Outcome where
  | page (r : Response)
  | fault (exc : String)
deriving DecidableEq, Repr

/-- `GET /` (src/main.py lines 100-108): list all posts and render the
index page. -/
def get_all_posts (s : Store) : Outcome × Store :=
  (.page (.indexPage (queryAll s)), s)

/-- The linear scan inside `show_post` (src/main.py lines 118-122):
iterate `query.all()` keeping the last record whose id matches. -/
def show_post_scan (posts : List BlogPost) (index : Nat) : Option BlogPost :=
  posts.foldl (fun acc blog_post => if blog_post.id == index then some blog_post else acc) none

/-- `GET /post/{index}` (src/main.py lines 111-123): scan all posts for
the id and render the detail page, possibly with no post. -/
def show_post (s : Store) (index : Nat) : Outcome × Store :=
  (.page (.postPage (show_post_scan (queryAll s) index)), s)

/-- `GET /about` (src/main.py lines 126-133). -/
def about (s : Store) : Outcome × Store := (.page .aboutPage, s)

/-- `GET /contact` (src/main.py lines 136-143). -/
def contact (s : Store) : Outcome × Store := (.page .contactPage, s)

/-- The form pre-filled from an existing post (src/main.py lines 162-168). -/
def fieldsOf (p : BlogPost) : Fields :=
  { title := p.title,
    subtitle := p.subtitle,
    author := p.author,
    img_url := p.img_url,
    body := p.body }

/-- The five mutable-field assignments of `edit_post`
(src/main.py lines 171-175): `id` and `date` are not touched. -/
def updatePost (p : BlogPost) (f : Fields) : BlogPost :=
  { p with
    title := f.title,
    subtitle := f.subtitle,
    author := f.author,
    img_url := f.img_url,
    body := f.body }

/-- `db.session.commit()` after the field assignments of `edit_post`
(src/main.py line 176): the UPDATE violates the `unique=True` constraint
on `title` exactly when a different row already holds the new title; a
failed commit is rolled back, leaving the table unchanged. -/
def commitUpdate (s : Store) (post_id : Nat) (f : Fields) : Except String Store :=
  if s.any (fun p => p.id != post_id && p.title == f.title) then
    .error "IntegrityError"
  else
    .ok (s.map (fun p => if p.id == post_id then updatePost p f else p))

/-- `/edit_post/{post_id}` (src/main.py lines 146-178).  `submission` is
`none` for a GET request and `some f` for a POST carrying form data `f`.
`BlogPost.query.get` runs first and the form constructor dereferences the
result's attributes, so a missing id raises AttributeError before any
validation. -/
def edit_post (s : Store) (post_id : Nat) (submission : Option Fields) : Outcome × Store :=
  match queryGet s post_id with
  | none => (.fault "AttributeError", s)
  | some blog_post =>
    match submission with
    | none => (.page (.makePostPage (fieldsOf blog_post) false), s)
    | some f =>
      if validateForm f then
        match commitUpdate s post_id f with
        | .ok s2 => (.page (.redirect ("/post/" ++ String.mk (natDigits post_id))), s2)
        | .error e => (.fault e, s)
      else (.page (.makePostPage f false), s)

/-- `db.session.add(new_post)` followed by `db.session.commit()`
(src/main.py lines 200-201): the INSERT fails on a duplicate title
(`unique=True`), and a failed commit leaves the table unchanged. -/
def commitCreate (s : Store) (p : BlogPost) : Except String Store :=
  if titleTaken s p.title then .error "IntegrityError" else .ok (s ++ [p])

/-- The `BlogPost(...)` construction plus add/commit of `new_post`
(src/main.py lines 192-201), returning the stored record and the new
store on success: a fresh id is assigned and the given `date` string is
stored verbatim, as are the five submitted fields. -/
def create (s : Store) (f : Fields) (date : String) : Except String (BlogPost × Store) :=
  let p : BlogPost :=
    { id := newId s,
      title := f.title,
      subtitle := f.subtitle,
      date := date,
      body := f.body,
      author := f.author,
      img_url := f.img_url }
  match commitCreate s p with
  | .ok s2 => .ok (p, s2)
  | .error e => .error e

/-- `/new-post` (src/main.py lines 182-203).  `submission` is `none` for a
GET request and `some f` for a POST carrying form data `f`; `now` is the
server clock read by `dt.datetime.now()`.  On valid data the handler
creates the record with the server-stamped date and redirects to `/`. -/
def new_post (s : Store) (now : Date) (submission : Option Fields) : Outcome × Store :=
  match submission with
  | none => (.page (.makePostPage ⟨"", "", "", "", ""⟩ true), s)
  | some f =>
    if validateForm f then
      match create s f (strftimeMDY now) with
      | .ok (_, s2) => (.page (.redirect "/"), s2)
      | .error e => (.fault e, s)
    else (.page (.makePostPage f true), s)

/-- `GET /delete/{post_id}` (src/main.py lines 206-221):
`query.get` then `session.delete`; passing `None` to `session.delete`
raises UnmappedInstanceError, otherwise the row is removed and the
handler redirects to `/`. -/
def delete (s : Store) (post_id : Nat) : Outcome × Store :=
  match queryGet s post_id with
  | none => (.fault "UnmappedInstanceError", s)
  | some _ => (.page (.redirect "/"), s.filter (fun p => p.id != post_id))

/-! ### Helper lemmas -/

theorem init_le_foldl_max (l : List Nat) (a : Nat) : a ≤ l.foldl max a := by
  induction l generalizing a with
  | nil => exact Nat.le_refl a
  | cons y ys ih => exact Nat.le_trans (Nat.le_max_left a y) (ih (max a y))

theorem le_foldl_max (l : List Nat) (a : Nat) : ∀ x ∈ l, x ≤ l.foldl max a := by
  induction l generalizing a with
  | nil => intro x hx; cases hx
  | cons y ys ih =>
    intro x hx
    rcases List.mem_cons.mp hx with rfl | h
    · exact Nat.le_trans (Nat.le_max_right a x) (init_le_foldl_max ys (max a x))
    · exact ih (max a y) x h

/-- The id assigned to an inserted row is used by no existing row. -/
theorem newId_fresh (s : Store) : ∀ p ∈ s, p.id ≠ newId s := by
  intro p hp
  have h : p.id ≤ (s.map (fun q => q.id)).foldl max 0 :=
    le_foldl_max _ 0 p.id (List.mem_map_of_mem _ hp)
  unfold newId
  omega

/-- A fold that only replaces its accumulator on a match keeps it when
nothing matches. -/
theorem scan_skips_non_matches (l : List BlogPost) (i : Nat) (acc : Option BlogPost)
    (h : ∀ p ∈ l, (p.id == i) = false) :
    l.foldl (fun a blog_post => if blog_post.id == i then some blog_post else a) acc = acc := by
  induction l generalizing acc with
  | nil => rfl
  | cons q qs ih =>
    have hq : (q.id == i) = false := h q (List.mem_cons_self q qs)
    simp only [List.foldl_cons, hq, if_neg Bool.false_ne_true]
    exact ih acc fun p hp => h p (List.mem_cons_of_mem q hp)

theorem updatePost_id (p : BlogPost) (f : Fields) : (updatePost p f).id = p.id := rfl

theorem updatePost_date (p : BlogPost) (f : Fields) : (updatePost p f).date = p.date := rfl

/-- Primary-key lookup after the in-place UPDATE of `commitUpdate`:
the looked-up row is the updated one. -/
theorem find_map_update (s : List BlogPost) (post_id : Nat) (f : Fields) (p : BlogPost)
    (h : s.find? (fun q => q.id == post_id) = some p) :
    (s.map (fun q => if q.id == post_id then updatePost q f else q)).find?
        (fun q => q.id == post_id) = some (updatePost p f) := by
  induction s with
  | nil => simp at h
  | cons q qs ih =>
    by_cases hq : (q.id == post_id) = true
    · rw [@List.find?_cons_of_pos _ (fun r => r.id == post_id) q qs hq] at h
      injection h with h
      subst h
      simp only [List.map_cons, if_pos hq]
      exact List.find?_cons_of_pos _ (show ((updatePost q f).id == post_id) = true from hq)
    · rw [@List.find?_cons_of_neg _ (fun r => r.id == post_id) q qs hq] at h
      simp only [List.map_cons, if_neg hq]
      rw [@List.find?_cons_of_neg _ (fun r => r.id == post_id) q _ hq]
      exact ih h

theorem digitChar_isDigit (d : Nat) (h : d < 10) : (digitChar d).isDigit = true := by
  interval_cases d <;> decide

theorem natDigits_all_digits (n : Nat) : ∀ c ∈ natDigits n, c.isDigit = true := by
  induction n using Nat.strong_induction_on with
  | _ n ih =>
    intro c hc
    rw [natDigits] at hc
    split at hc
    · next h =>
      rcases List.mem_singleton.mp hc with rfl
      exact digitChar_isDigit n h
    · next h =>
      rcases List.mem_append.mp hc with h1 | h1
      · exact ih (n / 10) (Nat.div_lt_self (by omega) (by omega)) c h1
      · rcases List.mem_singleton.mp h1 with rfl
        exact digitChar_isDigit (n % 10) (Nat.mod_lt n (by omega))

theorem natDigits_ne_nil (n : Nat) : natDigits n ≠ [] := by
  rw [natDigits]
  split
  · simp
  · simp

theorem natDigits_small (n : Nat) (h : n < 10) : natDigits n = [digitChar n] := by
  rw [natDigits]
  exact dif_pos h

/-- For a two-digit-bounded value, `pad2` produces exactly two digit
characters. -/
theorem pad2_spec (n : Nat) (h : n < 100) :
    ∃ a b, pad2 n = [a, b] ∧ a.isDigit = true ∧ b.isDigit = true := by
  unfold pad2
  by_cases h10 : n < 10
  · refine ⟨'0', digitChar n, ?_, by decide, digitChar_isDigit n h10⟩
    rw [if_pos h10, natDigits_small n h10]
  · refine ⟨digitChar (n / 10), digitChar (n % 10), ?_, ?_, ?_⟩
    · rw [if_neg h10, natDigits]
      rw [dif_neg h10, natDigits_small (n / 10) (by omega)]
      rfl
    · exact digitChar_isDigit (n / 10) (by omega)
    · exact digitChar_isDigit (n % 10) (Nat.mod_lt n (by omega))

/-- The server-stamped date string always has the "MM DD, YYYY" shape,
for any calendar month and day (both are below 100). -/
theorem strftimeMDY_format (t : Date) (hm : t.month < 100) (hd : t.day < 100) :
    dateFormatOK (strftimeMDY t) = true := by
  obtain ⟨a, b, hab, ha, hb⟩ := pad2_spec t.month hm
  obtain ⟨c, d, hcd, hc, hd2⟩ := pad2_spec t.day hd
  have hrest1 : (natDigits t.year).isEmpty = false := by
    cases hnd : natDigits t.year with
    | nil => exact absurd hnd (natDigits_ne_nil t.year)
    | cons x xs => rfl
  have hrest2 : (natDigits t.year).all Char.isDigit = true :=
    List.all_eq_true.mpr fun ch hch => natDigits_all_digits t.year ch hch
  unfold strftimeMDY dateFormatOK
  rw [hab, hcd]
  simp [ha, hb, hc, hd2, hrest1, hrest2, String.toList]

/-! ### Claim theorems -/

/-- C1: for every field set with all five required fields non-empty and a
well-formed `img_url`, `create(fields)` followed by `get(newId)` returns a
record equal to `fields` plus the assigned `id` and the stamped `date`; no
stored field is transformed. -/
theorem C1_create_get_roundtrip (s : Store) (f : Fields) (d : String)
    (p : BlogPost) (s2 : Store)
    (_hval : validateForm f = true)
    (hok : create s f d = .ok (p, s2)) :
    queryGet s2 p.id = some p ∧
    p.title = f.title ∧ p.subtitle = f.subtitle ∧ p.author = f.author ∧
    p.img_url = f.img_url ∧ p.body = f.body ∧ p.date = d := by
  unfold create commitCreate at hok
  by_cases ht : titleTaken s f.title = true
  · simp [ht] at hok
  · simp [ht] at hok
    obtain ⟨hp, hs2⟩ := hok
    subst hp
    subst hs2
    refine ⟨?_, rfl, rfl, rfl, rfl, rfl, rfl⟩
    unfold queryGet
    rw [List.find?_append]
    have h1 : s.find? (fun q => q.id == newId s) = none :=
      List.find?_eq_none.mpr fun q hq => by simp [newId_fresh s q hq]
    rw [h1]
    simp [List.find?]

/-- C2: creating a post whose title equals the title of an existing post
creates no second record: the handler faults (or re-renders on invalid
data) and the store is unchanged. -/
theorem C2_duplicate_title_rejected (s : Store) (now : Date) (f : Fields)
    (hdup : titleTaken s f.title = true) :
    (new_post s now (some f)).2 = s ∧
    ((new_post s now (some f)).1 = .fault "IntegrityError" ∨
     (new_post s now (some f)).1 = .page (.makePostPage f true)) := by
  unfold new_post create commitCreate
  by_cases hv : validateForm f = true
  · simp [hv, hdup]
  · simp [hv]

/-- A concrete stored post with id 2. -/
def exPost : BlogPost := ⟨2, "T2", "s2", "01 02, 2020", "b2", "a2", "https://a.com/2"⟩

/-- A two-post store used to exercise the edit flow. -/
def exStore : Store :=
  [⟨1, "T1", "s1", "01 01, 2020", "b1", "a1", "https://a.com/1"⟩, exPost]

/-- A form submission that passes validation but reuses post 1's title. -/
def exClash : Fields := ⟨"T1", "s2x", "a2x", "https://a.com/2x", "b2x"⟩

/-- A valid edit submission keeping post 2's own title. -/
def exKeep : Fields := ⟨"T2", "s2x", "a2x", "https://a.com/2x", "b2x"⟩

/-- A valid form submission. -/
def sampleFields : Fields := ⟨"Hello", "World", "A", "https://x.com/i.png", "text"⟩

/-- The record `create` builds from `sampleFields` in an empty store. -/
def samplePost : BlogPost :=
  ⟨1, "Hello", "World", "10 12, 2026", "text", "A", "https://x.com/i.png"⟩

/-- A submission failing validation: the `author` field is empty. -/
def badFields : Fields := ⟨"Hello", "World", "", "https://x.com/i.png", "text"⟩

/-- C3 counterexample: a valid edit submission whose new title duplicates a
different post's title makes the UPDATE violate the `unique=True`
constraint on `title`: the flow faults with IntegrityError and the store
is unchanged, so `get(id)` does not reflect the update. -/
theorem C3_counterexample :
    validateForm exClash = true ∧
    queryGet exStore 2 = some exPost ∧
    edit_post exStore 2 (some exClash) = (.fault "IntegrityError", exStore) ∧
    queryGet (edit_post exStore 2 (some exClash)).2 2 ≠ some (updatePost exPost exClash) := by
  refine ⟨by decide, by decide, by decide, by decide⟩

/-- C3 (amended): for every existing post id and every valid edit
submission whose title does not duplicate a different post's title, the
edit flow overwrites exactly the five submitted mutable fields, leaves
`id` and `date` unchanged, redirects to the post page, and a subsequent
`get(id)` reflects the update; every other record is untouched. -/
theorem C3_edit_overwrites_fields (s : Store) (post_id : Nat) (f : Fields) (p : BlogPost)
    (hget : queryGet s post_id = some p)
    (hval : validateForm f = true)
    (hnc : s.any (fun q => q.id != post_id && q.title == f.title) = false) :
    (edit_post s post_id (some f)).1 =
      .page (.redirect ("/post/" ++ String.mk (natDigits post_id))) ∧
    queryGet (edit_post s post_id (some f)).2 post_id = some (updatePost p f) ∧
    (updatePost p f).id = p.id ∧ (updatePost p f).date = p.date ∧
    (updatePost p f).title = f.title ∧ (updatePost p f).subtitle = f.subtitle ∧
    (updatePost p f).author = f.author ∧ (updatePost p f).img_url = f.img_url ∧
    (updatePost p f).body = f.body ∧
    (∀ q ∈ s, q.id ≠ post_id → q ∈ (edit_post s post_id (some f)).2) ∧
    (∀ q ∈ (edit_post s post_id (some f)).2, q.id ≠ post_id → q ∈ s) := by
  have hrun : edit_post s post_id (some f) =
      (.page (.redirect ("/post/" ++ String.mk (natDigits post_id))),
        s.map (fun q => if q.id == post_id then updatePost q f else q)) := by
    unfold edit_post commitUpdate
    rw [hget]
    simp [hval, hnc]
  rw [hrun]
  refine ⟨rfl, ?_, rfl, rfl, rfl, rfl, rfl, rfl, rfl, ?_, ?_⟩
  · unfold queryGet at hget ⊢
    exact find_map_update s post_id f p hget
  · intro q hq hne
    have hbeq : (q.id == post_id) = false := by simp [hne]
    exact List.mem_map.mpr ⟨q, hq, by rw [hbeq]; simp⟩
  · intro q hq hne
    obtain ⟨r, hr, hrq⟩ := List.mem_map.mp hq
    by_cases hrid : (r.id == post_id) = true
    · rw [if_pos hrid] at hrq
      have : q.id = post_id := by
        rw [← hrq, updatePost_id]
        simpa using hrid
      exact absurd this hne
    · rw [if_neg hrid] at hrq
      exact hrq ▸ hr

/-- C4: a create or edit submission that fails validation leaves the
store unchanged and re-renders the form page instead of redirecting. -/
theorem C4_invalid_leaves_store (s : Store) (now : Date) (f : Fields) (post_id : Nat)
    (hval : validateForm f = false) :
    new_post s now (some f) = (.page (.makePostPage f true), s) ∧
    ((queryGet s post_id).isSome →
      edit_post s post_id (some f) = (.page (.makePostPage f false), s)) := by
  constructor
  · unfold new_post
    simp [hval]
  · intro hsome
    obtain ⟨p, hp⟩ := Option.isSome_iff_exists.mp hsome
    unfold edit_post
    rw [hp]
    simp [hval]

/-- C5: `GET /post/{id}` on a missing id does not raise: the handler
scans all posts, finds nothing, and renders the detail page with an
absent (`none`) post. -/
theorem C5_missing_id_renders_empty (s : Store) (i : Nat)
    (h : queryGet s i = none) :
    show_post s i = (.page (.postPage none), s) := by
  unfold queryGet at h
  have hall : ∀ p ∈ s, (p.id == i) = false := by
    intro p hp
    simpa using List.find?_eq_none.mp h p hp
  unfold show_post show_post_scan queryAll
  rw [scan_skips_non_matches s i none hall]

/-- C6: on a missing id, the update flow (`POST /edit_post/{id}`) and the
delete flow (`/delete/{id}`) fault the request with an uncaught
exception; no graceful response is produced. -/
theorem C6_missing_id_update_delete_fault (s : Store) (i : Nat) (f : Fields)
    (h : queryGet s i = none) :
    edit_post s i (some f) = (.fault "AttributeError", s) ∧
    delete s i = (.fault "UnmappedInstanceError", s) := by
  unfold edit_post delete
  rw [h]
  exact ⟨rfl, rfl⟩

/-- C7 counterexample: a form-valid `POST /new-post` submission whose
title duplicates an existing post's title creates no record and faults
with IntegrityError instead of redirecting to `/`, so the claim fails as
universally stated over valid submissions. -/
theorem C7_counterexample :
    validateForm sampleFields = true ∧
    titleTaken [samplePost] sampleFields.title = true ∧
    new_post [samplePost] ⟨10, 12, 2026⟩ (some sampleFields) =
      (.fault "IntegrityError", [samplePost]) ∧
    (new_post [samplePost] ⟨10, 12, 2026⟩ (some sampleFields)).1 ≠ .page (.redirect "/") := by
  refine ⟨by decide, by decide, by decide, by decide⟩

/-- C7 (amended): a valid `POST /new-post` submission whose title does
not duplicate an existing post's title creates a record dated with the
server clock's day in "MM DD, YYYY" form (the form has no date field, so
the client cannot supply one), the record appears in `list()` with a
freshly assigned id used by no existing post, and the response redirects
to `/`. -/
theorem C7_valid_create_redirects (s : Store) (now : Date) (f : Fields)
    (hval : validateForm f = true)
    (hfresh : titleTaken s f.title = false)
    (hm : now.month < 100) (hd : now.day < 100) :
    ∃ p : BlogPost,
      new_post s now (some f) = (.page (.redirect "/"), s ++ [p]) ∧
      p ∈ queryAll (s ++ [p]) ∧
      (∀ q ∈ s, q.id ≠ p.id) ∧
      p.date = strftimeMDY now ∧
      dateFormatOK p.date = true ∧
      p.title = f.title := by
  refine ⟨{ id := newId s,
            title := f.title,
            subtitle := f.subtitle,
            date := strftimeMDY now,
            body := f.body,
            author := f.author,
            img_url := f.img_url },
          ?_, ?_, ?_, rfl, strftimeMDY_format now hm hd, rfl⟩
  · unfold new_post create commitCreate
    simp [hval, hfresh]
  · exact List.mem_append_right s (List.mem_singleton.mpr rfl)
  · intro q hq
    exact newId_fresh s q hq

/-- C8: `/delete/{id}` on an existing post removes exactly that record:
the store no longer yields it from `get(id)`, every other record
survives, nothing new appears, and the response redirects to `/`. -/
theorem C8_delete_removes_record (s : Store) (i : Nat) (p : BlogPost)
    (hget : queryGet s i = some p) :
    (delete s i).1 = .page (.redirect "/") ∧
    queryGet (delete s i).2 i = none ∧
    (∀ q ∈ s, q.id ≠ i → q ∈ (delete s i).2) ∧
    (∀ q ∈ (delete s i).2, q ∈ s) := by
  have hrun : delete s i = (.page (.redirect "/"), s.filter (fun q => q.id != i)) := by
    unfold delete
    rw [hget]
  rw [hrun]
  refine ⟨rfl, ?_, ?_, ?_⟩
  · unfold queryGet
    apply List.find?_eq_none.mpr
    intro q hq
    have hne := (List.mem_filter.mp hq).2
    simp only [bne_iff_ne, ne_eq] at hne
    simp [hne]
  · intro q hq hne
    exact List.mem_filter.mpr ⟨hq, by simp [hne]⟩
  · intro q hq
    exact (List.mem_filter.mp hq).1

/-- C9: when stored ids are unique, the linear scan of `show_post`
(keeping the last matching record) computes exactly the primary-key
lookup `get(id)`: the matching post when one exists, `none` otherwise. -/
theorem C9_scan_refines_get (s : Store) (i : Nat)
    (hnodup : (s.map (fun p => p.id)).Nodup) :
    show_post_scan s i = queryGet s i := by
  induction s with
  | nil => rfl
  | cons q qs ih =>
    rw [List.map_cons, List.nodup_cons] at hnodup
    obtain ⟨hnotin, hnd⟩ := hnodup
    unfold show_post_scan queryGet
    by_cases hq : (q.id == i) = true
    · have hqi : q.id = i := by simpa using hq
      subst hqi
      rw [List.foldl_cons, if_pos hq]
      have hnone : ∀ p ∈ qs, (p.id == q.id) = false := by
        intro p hp
        have hpq : p.id ≠ q.id := by
          intro he
          exact hnotin (he ▸ List.mem_map_of_mem (fun r => r.id) hp)
        simp [hpq]
      rw [scan_skips_non_matches qs q.id (some q) hnone]
      exact (List.find?_cons_of_pos qs hq).symm
    · rw [List.foldl_cons, if_neg hq]
      rw [@List.find?_cons_of_neg _ (fun p => p.id == i) q qs hq]
      exact ih hnd

/-- C10: even the GET request to `/edit_post/{id}` faults on a missing
id: the handler dereferences the absent record while pre-filling the
form, before any validation or rendering. -/
theorem C10_missing_id_edit_get_faults (s : Store) (i : Nat)
    (h : queryGet s i = none) :
    edit_post s i none = (.fault "AttributeError", s) := by
  unfold edit_post
  rw [h]

/-! ### Witnesses: each claim theorem applied at a concrete input -/

theorem C1_witness :
    validateForm sampleFields = true ∧
    create [] sampleFields "10 12, 2026" = .ok (samplePost, [samplePost]) ∧
    (queryGet [samplePost] samplePost.id = some samplePost ∧
     samplePost.title = sampleFields.title ∧ samplePost.subtitle = sampleFields.subtitle ∧
     samplePost.author = sampleFields.author ∧ samplePost.img_url = sampleFields.img_url ∧
     samplePost.body = sampleFields.body ∧ samplePost.date = "10 12, 2026") :=
  ⟨by decide, by rfl,
   C1_create_get_roundtrip [] sampleFields "10 12, 2026" samplePost [samplePost]
     (by decide) (by rfl)⟩

theorem C2_witness :
    titleTaken [samplePost] sampleFields.title = true ∧
    ((new_post [samplePost] ⟨10, 12, 2026⟩ (some sampleFields)).2 = [samplePost] ∧
     ((new_post [samplePost] ⟨10, 12, 2026⟩ (some sampleFields)).1 = .fault "IntegrityError" ∨
      (new_post [samplePost] ⟨10, 12, 2026⟩ (some sampleFields)).1 =
        .page (.makePostPage sampleFields true))) :=
  ⟨by decide,
   C2_duplicate_title_rejected [samplePost] ⟨10, 12, 2026⟩ sampleFields (by decide)⟩

theorem C3_witness :
    queryGet exStore 2 = some exPost ∧
    validateForm exKeep = true ∧
    exStore.any (fun q => q.id != 2 && q.title == exKeep.title) = false ∧
    ((edit_post exStore 2 (some exKeep)).1 =
       .page (.redirect ("/post/" ++ String.mk (natDigits 2))) ∧
     queryGet (edit_post exStore 2 (some exKeep)).2 2 = some (updatePost exPost exKeep) ∧
     (updatePost exPost exKeep).id = exPost.id ∧ (updatePost exPost exKeep).date = exPost.date ∧
     (updatePost exPost exKeep).title = exKeep.title ∧
     (updatePost exPost exKeep).subtitle = exKeep.subtitle ∧
     (updatePost exPost exKeep).author = exKeep.author ∧
     (updatePost exPost exKeep).img_url = exKeep.img_url ∧
     (updatePost exPost exKeep).body = exKeep.body ∧
     (∀ q ∈ exStore, q.id ≠ 2 → q ∈ (edit_post exStore 2 (some exKeep)).2) ∧
     (∀ q ∈ (edit_post exStore 2 (some exKeep)).2, q.id ≠ 2 → q ∈ exStore)) :=
  ⟨by decide, by decide, by decide,
   C3_edit_overwrites_fields exStore 2 exKeep exPost (by decide) (by decide) (by decide)⟩

theorem C4_witness :
    validateForm badFields = false ∧
    (new_post [samplePost] ⟨10, 12, 2026⟩ (some badFields) =
       (.page (.makePostPage badFields true), [samplePost]) ∧
     ((queryGet [samplePost] 1).isSome →
       edit_post [samplePost] 1 (some badFields) =
         (.page (.makePostPage badFields false), [samplePost]))) :=
  ⟨by decide,
   C4_invalid_leaves_store [samplePost] ⟨10, 12, 2026⟩ badFields 1 (by decide)⟩

theorem C5_witness :
    queryGet [samplePost] 2 = none ∧
    show_post [samplePost] 2 = (.page (.postPage none), [samplePost]) :=
  ⟨by decide, C5_missing_id_renders_empty [samplePost] 2 (by decide)⟩

theorem C6_witness :
    queryGet [samplePost] 2 = none ∧
    (edit_post [samplePost] 2 (some sampleFields) = (.fault "AttributeError", [samplePost]) ∧
     delete [samplePost] 2 = (.fault "UnmappedInstanceError", [samplePost])) :=
  ⟨by decide, C6_missing_id_update_delete_fault [samplePost] 2 sampleFields (by decide)⟩

theorem C7_witness :
    validateForm sampleFields = true ∧
    titleTaken [] sampleFields.title = false ∧
    (10 : Nat) < 100 ∧ (12 : Nat) < 100 ∧
    (∃ p : BlogPost,
      new_post [] ⟨10, 12, 2026⟩ (some sampleFields) = (.page (.redirect "/"), [] ++ [p]) ∧
      p ∈ queryAll ([] ++ [p]) ∧
      (∀ q ∈ ([] : Store), q.id ≠ p.id) ∧
      p.date = strftimeMDY ⟨10, 12, 2026⟩ ∧
      dateFormatOK p.date = true ∧
      p.title = sampleFields.title) :=
  ⟨by decide, by decide, by decide, by decide,
   C7_valid_create_redirects [] ⟨10, 12, 2026⟩ sampleFields
     (by decide) (by decide) (by decide) (by decide)⟩

theorem C8_witness :
    queryGet [samplePost] 1 = some samplePost ∧
    ((delete [samplePost] 1).1 = .page (.redirect "/") ∧
     queryGet (delete [samplePost] 1).2 1 = none ∧
     (∀ q ∈ [samplePost], q.id ≠ 1 → q ∈ (delete [samplePost] 1).2) ∧
     (∀ q ∈ (delete [samplePost] 1).2, q ∈ [samplePost])) :=
  ⟨by decide, C8_delete_removes_record [samplePost] 1 samplePost (by decide)⟩

theorem C9_witness :
    (([samplePost] : Store).map (fun p => p.id)).Nodup ∧
    show_post_scan [samplePost] 1 = queryGet [samplePost] 1 :=
  ⟨by decide, C9_scan_refines_get [samplePost] 1 (by decide)⟩

theorem C10_witness :
    queryGet [samplePost] 2 = none ∧
    edit_post [samplePost] 2 none = (.fault "AttributeError", [samplePost]) :=
  ⟨by decide, C10_missing_id_edit_get_faults [samplePost] 2 (by decide)⟩

end Blog
